import Mathlib

/-!
Verification of the server-side coordination core of the distributed-synth
repository (Deno/Fresh): the controller-leadership service
(`routes/api/controller/manager.ts`, `routes/api/controller/status.ts`,
`routes/api/controller/lock.ts`) and the signaling/registry WebSocket handler
(`routes/api/signal.ts`).

The KV store (Deno KV) is modeled as a record of the leadership keys the code
uses plus association lists for the prefix-scanned key families.  Timestamps
are `Nat` milliseconds.  The JavaScript test `now - timestamp > TIMEOUT` on
numbers agrees with `Nat` subtraction here: truncation at zero only happens
when `timestamp > now`, where both versions answer `false`.  JavaScript
`x || y` on numbers (`0` falsy) is modeled by `jsOr`; `x || null` on a
nullable number by `jsOrNone`.  `crypto.randomUUID()` values are threaded in
as `Nat` parameters.  The mutually recursive pair
`getActiveController`/`clearActiveController` of `manager.ts` is embedded
with explicit fuel; `none` marks a computation that exhausted every fuel
bound, i.e. one that does not terminate.
-/

/-- HEARTBEAT_TIMEOUT_MS of manager.ts and status.ts (30 s). -/
def HEARTBEAT_TIMEOUT_MS : Nat := 30000

/-- CLIENT_GRACE_PERIOD_MS of signal.ts (15 s). -/
def CLIENT_GRACE_PERIOD_MS : Nat := 15000

/-- CLIENT_TTL_MS of signal.ts (10 min). -/
def CLIENT_TTL_MS : Nat := 600000

/-- QUEUE_TTL_MS of signal.ts (5 min). -/
def QUEUE_TTL_MS : Nat := 300000

/-- JavaScript `a || b` on numbers, where `0` is the only falsy `Nat`. -/
def jsOr (a b : Nat) : Nat := if a = 0 then b else a

/-- JavaScript `x || null` on a nullable number: `0` collapses to `null`. -/
def jsOrNone (x : Option Nat) : Option Nat :=
  match x with
  | some 0 => none
  | other => other

/-- JavaScript `id.startsWith(p)` (modeled over the character list, which the
kernel can evaluate). -/
def strStartsWith (s p : String) : Bool := p.data.isPrefixOf s.data

/-- signal.ts `isController`: the id carries the literal "controller-" marker. -/
def isControllerId (id : String) : Bool := strStartsWith id "controller-"

/-- manager.ts `standardizeControllerId`: strip the "controller-" marker. -/
def standardizeControllerId (id : String) : String :=
  if strStartsWith id "controller-" then ⟨id.data.drop 11⟩ else id

/-- The `ControllerRecord` written by manager.ts under
`["webrtc","controller","active"]`.  `metadata.clientType` is kept as an
optional string. -/
structure ControllerRecord where
  id : String
  timestamp : Nat
  instanceId : String
  metadata : Option String
deriving Repr, DecidableEq

/-- The record written by status.ts under `["webrtc","active_controller"]`:
only `id` and `timestamp`. -/
structure StatusControllerRecord where
  id : String
  timestamp : Nat
deriving Repr, DecidableEq

/-- A change notification `{controllerId, timestamp, notificationId}`. -/
structure ChangeNotification where
  controllerId : Option String
  timestamp : Nat
  notificationId : Nat
deriving Repr, DecidableEq

/-- The legacy lock record `{userId, timestamp}` written by lock.ts under
`CONTROLLER_LOCK_KEY = ["webrtc:controller:lock"]`. -/
structure LockRecord where
  userId : String
  timestamp : Nat
deriving Repr, DecidableEq

/-- The `ClientRecord` written by signal.ts under
`["webrtc","connections",id]`. -/
structure ClientRecord where
  instanceId : String
  lastSeen : Nat
  connectionTimestamp : Nat
  reconnectionCount : Nat
  lastReconnectTime : Option Nat
  isController : Bool
deriving Repr, DecidableEq

/-- The record written for controllers under `["webrtc","controllers",id]`. -/
structure ControllerDirRecord where
  instanceId : String
  lastSeen : Nat
  connectionTimestamp : Nat
  reconnectionCount : Nat
deriving Repr, DecidableEq

/-- One client entry of the `client-list` reply built by
`getConnectedClients`. -/
structure ClientInfo where
  id : String
  connected : Bool
  lastSeen : Nat
  connectionTimestamp : Nat
  reconnectionCount : Nat
  lastReconnectTime : Option Nat
  isInGracePeriod : Bool
  hasWebsocket : Bool
  webRTCConnected : Bool
deriving Repr, DecidableEq

/-- Messages the server sends on sockets or stores in KV message queues. -/
inductive Msg where
  | registrationConfirmed (id : String) (reconnectionCount : Nat)
      (timestamp : Nat) (isReconnection : Bool)
  | activeController (controllerId : Option String) (timestamp : Nat)
  | clientList (clients : List ClientInfo)
  | signal (msgType : String) (payload : String) (source : String)
  | clientEvent (msgType : String) (clientId : String)
  | clientUpdate (msgType : String) (id : String) (lastSeen : Nat)
      (connectionTimestamp : Nat) (reconnectionCount : Nat) (isReconnect : Bool)
  | heartbeatAck (timestamp : Nat)
deriving Repr, DecidableEq

/-- The shared Deno KV state, restricted to the keys this code touches.
`activeController`/`controllerNotification` are manager.ts's keys
`["webrtc","controller","active"]` and `["webrtc","controller","notification"]`;
`statusController`/`statusNotification` are status.ts's keys
`["webrtc","active_controller"]` and `["webrtc","controller_change_notification"]`;
`controllerLock` is lock.ts's legacy `["webrtc:controller:lock"]`;
`connections` and `controllersDir` model the `["webrtc","connections",*]` and
`["webrtc","controllers",*]` families; `queues` models
`["webrtc","messages",recipient,ulid]`, appended in ULID order. -/
structure KVState where
  activeController : Option ControllerRecord := none
  controllerNotification : Option ChangeNotification := none
  statusController : Option StatusControllerRecord := none
  statusNotification : Option ChangeNotification := none
  controllerLock : Option LockRecord := none
  connections : List (String × ClientRecord) := []
  controllersDir : List (String × ControllerDirRecord) := []
  queues : List (String × Msg) := []
deriving Repr, DecidableEq

/-- Association-list read (Deno KV `get` on a keyed family). -/
def kvGet {α : Type} (l : List (String × α)) (k : String) : Option α :=
  (l.find? (fun p => p.1 == k)).map (fun p => p.2)

/-- Association-list write (Deno KV `set`): overwrite in place, else append. -/
def kvSet {α : Type} (l : List (String × α)) (k : String) (v : α) :
    List (String × α) :=
  if l.any (fun p => p.1 == k) then
    l.map (fun p => if p.1 == k then (k, v) else p)
  else
    l ++ [(k, v)]

/-- Association-list delete (Deno KV `delete`). -/
def kvDelete {α : Type} (l : List (String × α)) (k : String) :
    List (String × α) :=
  l.filter (fun p => p.1 != k)

/-- signal.ts `queueMessage`: append the message to the recipient's queue
under a fresh ULID (append keeps arrival order). -/
def queueMessage (s : KVState) (targetId : String) (message : Msg) : KVState :=
  { s with queues := s.queues ++ [(targetId, message)] }

/-- manager.ts `createControllerChangeNotification`: overwrite the
notification key with a fresh `notificationId` `u`. -/
def createControllerChangeNotification (u now : Nat) (cid : Option String)
    (s : KVState) : KVState :=
  let n : ChangeNotification :=
    { controllerId := cid, timestamp := now, notificationId := u }
  { s with controllerNotification := some n }

mutual

/-- manager.ts `getActiveController`, with fuel.  On an expired record it
calls `clearActiveController` on the stored id; `none` = out of fuel. -/
def getActiveController (fuel : Nat) (now u : Nat) (s : KVState) :
    Option (Option ControllerRecord × KVState) :=
  match fuel with
  | 0 => none
  | fuel + 1 =>
    match s.activeController with
    | none => some (none, s)
    | some r =>
      if now - r.timestamp > HEARTBEAT_TIMEOUT_MS then
        match clearActiveController fuel now u r.id s with
        | none => none
        | some (_, s1) => some (none, s1)
      else
        some (some r, s)

/-- manager.ts `clearActiveController`, with fuel.  Reads the current
controller through `getActiveController`; only the matching id may clear. -/
def clearActiveController (fuel : Nat) (now u : Nat) (controllerId : String)
    (s : KVState) : Option (Bool × KVState) :=
  match fuel with
  | 0 => none
  | fuel + 1 =>
    match getActiveController fuel now u s with
    | none => none
    | some (current, s1) =>
      match current with
      | none => some (false, s1)
      | some c =>
        if c.id = controllerId then
          some (true, createControllerChangeNotification u now none
            { s1 with activeController := none })
        else
          some (false, s1)

end

/-- manager.ts `setActiveController`: same id refreshes the timestamp only;
a heartbeat from a different id is rejected; otherwise the record is
overwritten and a change notification is published. -/
def setActiveController (fuel : Nat) (now u : Nat) (instanceId : String)
    (controllerId : String) (isHeartbeat : Bool) (s : KVState) :
    Option (Bool × KVState) :=
  match getActiveController fuel now u s with
  | none => none
  | some (current, s1) =>
    let newRec : ControllerRecord :=
      { id := controllerId, timestamp := now, instanceId := instanceId, metadata := some "controller" }
    match current with
    | some c =>
      if c.id = controllerId then
        let refreshed : ControllerRecord := { c with timestamp := now }
        some (false, { s1 with activeController := some refreshed })
      else if isHeartbeat then
        some (false, s1)
      else
        some (true, createControllerChangeNotification u now (some controllerId)
          { s1 with activeController := some newRec })
    | none =>
      some (true, createControllerChangeNotification u now (some controllerId)
        { s1 with activeController := some newRec })

/-- manager.ts `forceResetControllerState`: delete unconditionally and
publish a null notification. -/
def forceResetControllerState (fuel : Nat) (now u : Nat) (s : KVState) :
    Option (Bool × KVState) :=
  match getActiveController fuel now u s with
  | none => none
  | some (_, s1) =>
    some (true, createControllerChangeNotification u now none
      { s1 with activeController := none })

/-- status.ts `createControllerChangeNotification` (its own notification
key). -/
def statusCreateChangeNotification (u now : Nat) (cid : Option String)
    (s : KVState) : KVState :=
  let n : ChangeNotification :=
    { controllerId := cid, timestamp := now, notificationId := u }
  { s with statusNotification := some n }

/-- status.ts `getActiveController`: an expired record is deleted directly
and a null notification published (no recursion here). -/
def statusGetActiveController (now u : Nat) (s : KVState) :
    Option StatusControllerRecord × KVState :=
  match s.statusController with
  | none => (none, s)
  | some r =>
    if now - r.timestamp > HEARTBEAT_TIMEOUT_MS then
      (none, statusCreateChangeNotification u now none
        { s with statusController := none })
    else
      (some r, s)

/-- status.ts `setActiveController`: same shape as the manager's, but on the
`["webrtc","active_controller"]` key. -/
def statusSetActiveController (now u1 u2 : Nat) (controllerId : String)
    (isHeartbeat : Bool) (s : KVState) : Bool × KVState :=
  let read := statusGetActiveController now u1 s
  let newRec : StatusControllerRecord := { id := controllerId, timestamp := now }
  match read.1 with
  | some c =>
    if c.id = controllerId then
      (false, { read.2 with statusController := some newRec })
    else if isHeartbeat then
      (false, read.2)
    else
      (true, statusCreateChangeNotification u2 now (some controllerId)
        { read.2 with statusController := some newRec })
  | none =>
    (true, statusCreateChangeNotification u2 now (some controllerId)
      { read.2 with statusController := some newRec })

/-- status.ts `clearActiveController`: only the matching id may clear; note
this variant publishes no notification. -/
def statusClearActiveController (now u : Nat) (controllerId : String)
    (s : KVState) : Bool × KVState :=
  let read := statusGetActiveController now u s
  match read.1 with
  | none => (false, read.2)
  | some c =>
    if c.id = controllerId then
      (true, { read.2 with statusController := none })
    else
      (false, read.2)

/-- The JSON body lock.ts and status.ts return from POST. -/
structure LockResponse where
  success : Bool
  isActive : Bool
  activeController : Option String
  changed : Bool
  timeoutMs : Nat
deriving Repr, DecidableEq

/-- lock.ts `POST /controller/lock` with `auth = checkAuth(req)` and the
parsed `heartbeat` flag: runs the manager's `setActiveController`,
unconditionally rewrites the legacy lock key, and answers from a fresh
`getActiveController` read.  Outer `none` = divergence; inner `none` = 401
(no state change). -/
def handleLockPost (fuel : Nat) (now u : Nat) (instanceId : String)
    (auth : Option String) (isHeartbeat : Bool) (s : KVState) :
    Option (Option LockResponse × KVState) :=
  match auth with
  | none => some (none, s)
  | some controllerId =>
    match setActiveController fuel now u instanceId controllerId isHeartbeat s with
    | none => none
    | some (changed, s1) =>
      let newLock : LockRecord := { userId := controllerId, timestamp := now }
      let s2 := { s1 with controllerLock := some newLock }
      match getActiveController fuel now u s2 with
      | none => none
      | some (active, s3) =>
        some (some {
          success := true,
          isActive := (match active with
            | some a => a.id == controllerId
            | none => false),
          activeController := active.map (fun a => a.id),
          changed := changed,
          timeoutMs := HEARTBEAT_TIMEOUT_MS }, s3)

/-- status.ts `POST /controller/status`: runs its `setActiveController` and
answers from a fresh `getActiveController` read.  `none` = 401. -/
def handleStatusPost (now u1 u2 u3 : Nat) (auth : Option String)
    (isHeartbeat : Bool) (s : KVState) : Option LockResponse × KVState :=
  match auth with
  | none => (none, s)
  | some controllerId =>
    let step := statusSetActiveController now u1 u2 controllerId isHeartbeat s
    let read := statusGetActiveController now u3 step.2
    (some {
      success := true,
      isActive := (match read.1 with
        | some a => a.id == controllerId
        | none => false),
      activeController := read.1.map (fun a => a.id),
      changed := step.1,
      timeoutMs := HEARTBEAT_TIMEOUT_MS }, read.2)

/-- The non-expired controller records found under the two leadership keys
(manager.ts's and status.ts's), each tagged with its id and timestamp. -/
def liveControllerRecords (now : Nat) (s : KVState) : List (String × Nat) :=
  (match s.activeController with
   | some r =>
     if now - r.timestamp > HEARTBEAT_TIMEOUT_MS then [] else [(r.id, r.timestamp)]
   | none => []) ++
  (match s.statusController with
   | some r =>
     if now - r.timestamp > HEARTBEAT_TIMEOUT_MS then [] else [(r.id, r.timestamp)]
   | none => [])

/-- The per-instance in-memory state of signal.ts: the local socket map
(`activeConnections`, each socket tagged with whether it is OPEN), the local
`activeControllers` set, and the `activeWebRTCConnections` map from controller
id to the synth ids it reported as peer-connected. -/
structure SignalState where
  kv : KVState := {}
  activeConnections : List (String × Bool) := []
  activeControllers : List String := []
  activeWebRTCConnections : List (String × List String) := []
deriving Repr, DecidableEq

/-- signal.ts `hasActiveWebRTCConnection`: some controller reports the
client as peer-connected. -/
def hasActiveWebRTCConnection (sig : SignalState) (clientId : String) : Bool :=
  sig.activeWebRTCConnections.any (fun p => p.2.contains clientId)

/-- signal.ts `broadcastControllerChange`: send `active-controller` to every
locally attached non-controller socket that is OPEN.  (The error fallback
that queues on a failed send is not modeled: sends succeed here.) -/
def broadcastControllerChange (sig : SignalState) (controllerId : Option String)
    (now : Nat) : List (String × Msg) :=
  (sig.activeConnections.filter (fun p => !(isControllerId p.1) && p.2)).map
    (fun p => (p.1, Msg.activeController controllerId now))

/-- signal.ts `getConnectedClients`: list every non-controller ClientRecord,
annotated; the listing itself evicts nobody. -/
def getConnectedClients (sig : SignalState) (now : Nat) : List ClientInfo :=
  (sig.kv.connections.filter (fun p => !(isControllerId p.1))).map (fun p =>
    let lastSeen := p.2.lastSeen
    let connectionTimestamp := jsOr p.2.connectionTimestamp lastSeen
    { id := p.1,
      connected := false,
      lastSeen := lastSeen,
      connectionTimestamp := connectionTimestamp,
      reconnectionCount := p.2.reconnectionCount,
      lastReconnectTime := jsOrNone p.2.lastReconnectTime,
      isInGracePeriod := now - connectionTimestamp < CLIENT_GRACE_PERIOD_MS,
      hasWebsocket := sig.activeConnections.any (fun q => q.1 == p.1),
      webRTCConnected := hasActiveWebRTCConnection sig p.1 })

/-- signal.ts `notifyControllers`: send to the local controllers whose socket
is OPEN, queue for local controllers without one, then queue for every
controller found in the `["webrtc","controllers"]` directory that was not
already notified.  Returns the new state and the direct sends. -/
def notifyControllers (sig : SignalState) (message : Msg) :
    SignalState × List (String × Msg) :=
  let isOpen := fun cid => ((kvGet sig.activeConnections cid).getD false)
  let sends := (sig.activeControllers.filter isOpen).map (fun cid => (cid, message))
  let queuedLocal := (sig.activeControllers.filter (fun cid => !(isOpen cid))).map
    (fun cid => (cid, message))
  let queuedRemote := (sig.kv.controllersDir.filter
    (fun p => !(sig.activeControllers.contains p.1))).map (fun p => (p.1, message))
  let kv1 := { sig.kv with queues := sig.kv.queues ++ queuedLocal ++ queuedRemote }
  ({ sig with kv := kv1 }, sends)

/-- The removal test of `cleanupBasedOnWebRTCConnections` for one
ClientRecord entry: not a controller, past the grace period, and reported by
no controller. -/
def reaperRemoves (now : Nat) (union : List String)
    (p : String × ClientRecord) : Bool :=
  !(isControllerId p.1) &&
  !(now - jsOr p.2.connectionTimestamp 0 < CLIENT_GRACE_PERIOD_MS) &&
  !(union.contains p.1)

/-- signal.ts `cleanupBasedOnWebRTCConnections`: union the reported peer
sets, collect the synth records to remove, delete them from the KV, and
notify controllers with `client-disconnected` for each.  Returns the new
state and the direct sends of those notifications. -/
def cleanupBasedOnWebRTCConnections (sig : SignalState) (now : Nat) :
    SignalState × List (String × Msg) :=
  let union : List String :=
    sig.activeWebRTCConnections.foldl (fun acc p => acc ++ p.2) []
  let removedIds : List String :=
    (sig.kv.connections.filter (reaperRemoves now union)).map (fun p => p.1)
  let kv1 := { sig.kv with connections :=
      sig.kv.connections.filter (fun p => !(removedIds.contains p.1)) }
  let sig1 := { sig with kv := kv1 }
  removedIds.foldl
    (fun acc cid =>
      let step := notifyControllers acc.1 (Msg.clientEvent "client-disconnected" cid)
      (step.1, acc.2 ++ step.2))
    (sig1, [])

/-- signal.ts `registerConnection`: write the ClientRecord (inheriting
`connectionTimestamp` and bumping `reconnectionCount` whenever a prior record
exists, with or without the reconnect flag), store the socket, register
controllers in the controller directory, and notify controllers about
non-controller clients.  (Closing a duplicate local socket and the message
polling timer are not modeled.)  Returns the new state, the record written,
and the direct sends. -/
def registerConnection (sig : SignalState) (id : String) (isReconnect : Bool)
    (timestamp : Nat) (now : Nat) (instanceId : String) :
    SignalState × ClientRecord × List (String × Msg) :=
  let isControllerClient := isControllerId id
  let existingClient := kvGet sig.kv.connections id
  let connectionTimestamp :=
    match existingClient with
    | some e =>
      if isReconnect then jsOr e.connectionTimestamp (jsOr timestamp now)
      else jsOr e.connectionTimestamp now
    | none => now
  let reconnectionCount :=
    match existingClient with
    | some e => e.reconnectionCount + 1
    | none => 0
  let record : ClientRecord :=
    { instanceId := instanceId,
      lastSeen := now,
      connectionTimestamp := connectionTimestamp,
      reconnectionCount := reconnectionCount,
      lastReconnectTime :=
        if isReconnect then some now
        else jsOrNone (existingClient.bind (fun e => e.lastReconnectTime)),
      isController := isControllerClient }
  let kv1 := { sig.kv with connections := kvSet sig.kv.connections id record }
  let sig1 := { sig with kv := kv1, activeConnections := kvSet sig.activeConnections id true }
  if isControllerClient then
    let dirRec : ControllerDirRecord :=
      { instanceId := instanceId, lastSeen := now,
        connectionTimestamp := connectionTimestamp,
        reconnectionCount := reconnectionCount }
    let kv2 := { kv1 with controllersDir := kvSet kv1.controllersDir id dirRec }
    let sig2 := { sig1 with kv := kv2, activeControllers := sig1.activeControllers ++ [id] }
    (sig2, record, [])
  else
    let message := Msg.clientUpdate
      (if isReconnect then "client-reconnected" else "client-connected")
      id now connectionTimestamp reconnectionCount isReconnect
    let step := notifyControllers sig1 message
    (step.1, record, step.2)

/-- The result of the `controller-activate` case: the state after the
immediate handling, the frames sent at once, and the delay of the cleanup
sweep scheduled with `setTimeout` (if any). -/
structure ActivateResult where
  state : SignalState
  sends : List (String × Msg)
  scheduledCleanupDelayMs : Option Nat
deriving Repr, DecidableEq

/-- signal.ts `GET` onmessage, case "controller-activate" (for a registered
`clientId`): broadcast the change over local sockets, send the client list
immediately, and schedule a delayed cleanup after the grace period.  No
leadership KV key is touched. -/
def handleControllerActivate (sig : SignalState) (clientId : String)
    (now : Nat) : ActivateResult :=
  if isControllerId clientId then
    { state := sig,
      sends := broadcastControllerChange sig (some clientId) now ++
        [(clientId, Msg.clientList (getConnectedClients sig now))],
      scheduledCleanupDelayMs := some CLIENT_GRACE_PERIOD_MS }
  else
    { state := sig, sends := [], scheduledCleanupDelayMs := none }

/-- signal.ts `GET` onmessage, case "controller-deactivate": read the active
controller through the manager; if it names the sender, broadcast a null
controller over local sockets.  Nothing is deleted from the KV. -/
def handleControllerDeactivate (fuel : Nat) (now u : Nat) (sig : SignalState)
    (clientId : String) : Option (SignalState × List (String × Msg)) :=
  if isControllerId clientId then
    match getActiveController fuel now u sig.kv with
    | none => none
    | some (active, kv1) =>
      let sig1 := { sig with kv := kv1 }
      match active with
      | some c =>
        if c.id = clientId then
          some (sig1, broadcastControllerChange sig1 none now)
        else
          some (sig1, [])
      | none => some (sig1, [])
  else
    some (sig, [])

/-- signal.ts `GET` onmessage, cases "offer"/"answer"/"ice-candidate" (for a
registered `senderId`): deliver directly when the target has a local OPEN
socket, otherwise `queueMessage` — the target id is taken from the message
as-is; the client registry is never consulted. -/
def handleSignalingMessage (sig : SignalState) (senderId : String)
    (msgType : String) (targetId : String) (payload : String) :
    SignalState × List (String × Msg) :=
  match kvGet sig.activeConnections targetId with
  | some true => (sig, [(targetId, Msg.signal msgType payload senderId)])
  | _ =>
    ({ sig with kv := queueMessage sig.kv targetId (Msg.signal msgType payload senderId) }, [])

/-- A controller record whose heartbeat stopped at 0ms: at now = 40000ms it
is expired. -/
def sampleExpiredRecord : ControllerRecord :=
  { id := "controller-abc", timestamp := 0, instanceId := "local", metadata := some "controller" }

/-- KV state holding only the expired controller record. -/
def sampleExpiredKV : KVState := { activeController := some sampleExpiredRecord }

/-- A live controller record for the C7 witness. -/
def sampleLiveRecord : ControllerRecord :=
  { id := "abc", timestamp := 100000, instanceId := "local", metadata := some "controller" }

/-- KV state holding only the live controller record. -/
def sampleLiveKV : KVState := { activeController := some sampleLiveRecord }

/-- A live status-endpoint controller record for the C5 witness. -/
def sampleStatusRecord : StatusControllerRecord := { id := "alice", timestamp := 100000 }

/-- KV state for the C5 witness: leader "abc" under the manager's key and
leader "alice" under the status endpoint's key, both live at now = 110000. -/
def sampleTwoLeaderKV : KVState :=
  { activeController := some sampleLiveRecord, statusController := some sampleStatusRecord }

/-- The KV state after an authenticated `/controller/status` POST by "alice"
at 1000ms starting from the empty KV. -/
def twoWritersMid : KVState := (handleStatusPost 1000 1 2 3 (some "alice") false {}).2

/-- The KV state after "bob" then POSTs `/controller/lock` at 2000ms. -/
def twoWritersFinal : KVState :=
  match handleLockPost 5 2000 4 "local" (some "bob") false twoWritersMid with
  | some pr => pr.2
  | none => twoWritersMid

/-- The response lock.ts returns to a heartbeat rejected because `leaderId`
holds the leadership. -/
def rejectedHeartbeatResponse (leaderId : String) : LockResponse :=
  { success := true, isActive := false, activeController := some leaderId,
    changed := false, timeoutMs := HEARTBEAT_TIMEOUT_MS }

/-- A synth ClientRecord first registered at 100ms. -/
def priorClientRecord : ClientRecord :=
  { instanceId := "local", lastSeen := 100, connectionTimestamp := 100,
    reconnectionCount := 0, lastReconnectTime := none, isController := false }

/-- A controller ClientRecord first registered at 100ms. -/
def priorControllerClientRecord : ClientRecord :=
  { instanceId := "local", lastSeen := 100, connectionTimestamp := 100,
    reconnectionCount := 0, lastReconnectTime := none, isController := true }

/-- KV connections for the activation scenario: one controller, one synth. -/
def activateKV : KVState :=
  { connections := [("controller-abc", priorControllerClientRecord), ("synth-s1", priorClientRecord)] }

/-- Signal-instance state for the activation scenario: both sockets local
and OPEN, the controller registered, no reported WebRTC peers. -/
def activateSig : SignalState :=
  { kv := activateKV,
    activeConnections := [("controller-abc", true), ("synth-s1", true)],
    activeControllers := ["controller-abc"],
    activeWebRTCConnections := [] }

/-- The manager record held by "controller-x", freshly heartbeaten at
10000ms. -/
def deactRecord : ControllerRecord :=
  { id := "controller-x", timestamp := 10000, instanceId := "local", metadata := some "controller" }

/-- Signal-instance state for the deactivation scenario: "controller-x"
holds the manager record; one synth socket is attached and OPEN. -/
def deactivateSig : SignalState :=
  { kv := { activeController := some deactRecord },
    activeConnections := [("synth-s1", true)],
    activeControllers := [],
    activeWebRTCConnections := [] }

/-- Signal-instance state holding the prior record of "synth-z". -/
def reRegisterSig : SignalState :=
  { kv := { connections := [("synth-z", priorClientRecord)] },
    activeConnections := [],
    activeControllers := [],
    activeWebRTCConnections := [] }

/-- Signal-instance state for the signaling scenario: only "synth-a" is
registered and attached. -/
def signalingSig : SignalState :=
  { kv := { connections := [("synth-a", priorClientRecord)] },
    activeConnections := [("synth-a", true)],
    activeControllers := [],
    activeWebRTCConnections := [] }

/-- A synth ClientRecord freshly registered at 5000ms, used in the reaper
grace scenario. -/
def freshClientRecord : ClientRecord :=
  { instanceId := "local", lastSeen := 5000, connectionTimestamp := 5000,
    reconnectionCount := 0, lastReconnectTime := none, isController := false }

/-- Signal-instance state at the reaper sweep: "synth-y" registered at
5000ms, the only controller reporting an empty peer set. -/
def graceSig : SignalState :=
  { kv := { connections := [("synth-y", freshClientRecord)] },
    activeConnections := [],
    activeControllers := [],
    activeWebRTCConnections := [("controller-abc", [])] }

/-- The manager's operations may touch only its two keys: every other KV
field is preserved. -/
def ManagerFrame (s t : KVState) : Prop :=
  t.statusController = s.statusController ∧
  t.statusNotification = s.statusNotification ∧
  t.controllerLock = s.controllerLock ∧
  t.connections = s.connections ∧
  t.controllersDir = s.controllersDir ∧
  t.queues = s.queues

theorem managerFrame_refl (s : KVState) : ManagerFrame s s := by
  simp [ManagerFrame]

theorem managerFrame_trans {s t v : KVState} (h1 : ManagerFrame s t)
    (h2 : ManagerFrame t v) : ManagerFrame s v :=
  ⟨h2.1.trans h1.1, h2.2.1.trans h1.2.1, h2.2.2.1.trans h1.2.2.1,
   h2.2.2.2.1.trans h1.2.2.2.1, h2.2.2.2.2.1.trans h1.2.2.2.2.1,
   h2.2.2.2.2.2.trans h1.2.2.2.2.2⟩


theorem getActive_clear_frame :
    ∀ fuel now u s,
      (∀ r, getActiveController fuel now u s = some r → ManagerFrame s r.2) ∧
      (∀ cid b t, clearActiveController fuel now u cid s = some (b, t) →
        ManagerFrame s t) := by
  intro fuel
  induction fuel with
  | zero =>
    intro now u s
    constructor
    · intro r h; simp [getActiveController] at h
    · intro cid b t h; simp [clearActiveController] at h
  | succ n ih =>
    intro now u s
    constructor
    · intro r h
      cases hrec : s.activeController with
      | none =>
        simp only [getActiveController, hrec] at h
        cases h
        exact managerFrame_refl s
      | some c =>
        simp only [getActiveController, hrec] at h
        by_cases hexp : now - c.timestamp > HEARTBEAT_TIMEOUT_MS
        · rw [if_pos hexp] at h
          cases hclear : clearActiveController n now u c.id s with
          | none => rw [hclear] at h; cases h
          | some pr =>
            obtain ⟨b1, s1⟩ := pr
            rw [hclear] at h
            cases h
            exact (ih now u s).2 c.id b1 s1 hclear
        · rw [if_neg hexp] at h
          cases h
          exact managerFrame_refl s
    · intro cid b t h
      cases hget : getActiveController n now u s with
      | none =>
        simp only [clearActiveController, hget] at h
        exact Option.noConfusion h
      | some pr =>
        obtain ⟨cur, s1⟩ := pr
        have hfr : ManagerFrame s s1 := (ih now u s).1 (cur, s1) hget
        cases cur with
        | none =>
          simp only [clearActiveController, hget] at h
          cases h
          exact hfr
        | some c =>
          simp only [clearActiveController, hget] at h
          by_cases hid : c.id = cid
          · rw [if_pos hid] at h
            cases h
            refine managerFrame_trans hfr ?_
            simp [ManagerFrame, createControllerChangeNotification]
          · rw [if_neg hid] at h
            cases h
            exact hfr

theorem setActiveController_frame (fuel now u : Nat) (iid cid : String)
    (hb : Bool) (s : KVState) (b : Bool) (t : KVState)
    (h : setActiveController fuel now u iid cid hb s = some (b, t)) :
    ManagerFrame s t := by
  cases hget : getActiveController fuel now u s with
  | none =>
    simp only [setActiveController, hget] at h
    exact Option.noConfusion h
  | some pr =>
    obtain ⟨cur, s1⟩ := pr
    have hfr : ManagerFrame s s1 := (getActive_clear_frame fuel now u s).1 (cur, s1) hget
    cases cur with
    | none =>
      simp only [setActiveController, hget] at h
      cases h
      refine managerFrame_trans hfr ?_
      simp [ManagerFrame, createControllerChangeNotification]
    | some c =>
      simp only [setActiveController, hget] at h
      by_cases hid : c.id = cid
      · rw [if_pos hid] at h
        cases h
        exact managerFrame_trans hfr (by simp [ManagerFrame])
      · rw [if_neg hid] at h
        by_cases hhb : hb = true
        · rw [if_pos hhb] at h
          cases h
          exact hfr
        · rw [if_neg hhb] at h
          cases h
          refine managerFrame_trans hfr ?_
          simp [ManagerFrame, createControllerChangeNotification]

/-- On a live (non-expired) record, the manager's read returns it and leaves
the KV untouched. -/
theorem getActive_live (fuel now u : Nat) (s : KVState) (c : ControllerRecord)
    (hc : s.activeController = some c)
    (hl : ¬ (now - c.timestamp > HEARTBEAT_TIMEOUT_MS)) :
    getActiveController (fuel + 1) now u s = some (some c, s) := by
  simp only [getActiveController, hc]
  rw [if_neg hl]

/-- With no record stored, the manager's read returns null untouched. -/
theorem getActive_absent (fuel now u : Nat) (s : KVState)
    (hc : s.activeController = none) :
    getActiveController (fuel + 1) now u s = some (none, s) := by
  simp only [getActiveController, hc]

/-- On an expired record the mutual recursion of manager.ts's
`getActiveController` and `clearActiveController` never terminates: every
fuel bound is exhausted. -/
theorem expired_diverge_aux :
    ∀ fuel now u s r, s.activeController = some r →
      now - r.timestamp > HEARTBEAT_TIMEOUT_MS →
      getActiveController fuel now u s = none ∧
      ∀ cid, clearActiveController fuel now u cid s = none := by
  intro fuel
  induction fuel with
  | zero =>
    intro now u s r _ _
    exact ⟨rfl, fun _ => rfl⟩
  | succ n ih =>
    intro now u s r hc he
    have hget : getActiveController n now u s = none := (ih now u s r hc he).1
    have hclear : ∀ cid, clearActiveController n now u cid s = none :=
      (ih now u s r hc he).2
    constructor
    · simp only [getActiveController, hc]
      rw [if_pos he, hclear r.id]
    · intro cid
      simp only [clearActiveController, hget]

/-- C1: the claim says a single `getActive()` call on a KV state whose
ControllerRecord satisfies `now − timestamp > HEARTBEAT_TIMEOUT` terminates,
deletes the record, publishes a null ChangeNotification and returns null.
The code cannot do this: manager.ts's `getActiveController` handles an
expired record by calling `clearActiveController`, which re-reads through
`getActiveController`, which finds the same still-stored, still-expired
record — the two functions recurse forever, the record is never deleted and
no notification is published.  Formally: every fuel bound is exhausted. -/
theorem getActiveController_expired_diverges (fuel now u : Nat) (s : KVState)
    (r : ControllerRecord) (hc : s.activeController = some r)
    (he : now - r.timestamp > HEARTBEAT_TIMEOUT_MS) :
    getActiveController fuel now u s = none :=
  (expired_diverge_aux fuel now u s r hc he).1

/-- Witness for C1 at the failing input: a record with timestamp 0 read at
now = 40000 exhausts a fuel bound of 50. -/
theorem getActiveController_expired_diverges_witness :
    getActiveController 50 40000 7 sampleExpiredKV = none :=
  getActiveController_expired_diverges 50 40000 7 sampleExpiredKV
    sampleExpiredRecord rfl (by decide)

/-- C7: when `setActive(id)` is called with the id of the current non-expired
leader, only the record's timestamp is rewritten (id, instanceId and metadata
survive), the call returns `changed = false`, and the rest of the KV — the
change-notification key included — is untouched. -/
theorem setActive_same_id_refreshes_timestamp_only
    (fuel now u : Nat) (iid cid : String) (hb : Bool) (s : KVState)
    (c : ControllerRecord) (hc : s.activeController = some c)
    (hl : ¬ (now - c.timestamp > HEARTBEAT_TIMEOUT_MS)) (hid : c.id = cid) :
    setActiveController (fuel + 1) now u iid cid hb s =
      some (false, { s with activeController := some { c with timestamp := now } }) := by
  simp only [setActiveController, getActive_live fuel now u s c hc hl]
  rw [if_pos hid]

/-- Witness for C7: the leader re-activating at now = 110000 only moves the
timestamp. -/
theorem setActive_same_id_refreshes_timestamp_only_witness :
    setActiveController 3 110000 7 "local" "abc" false sampleLiveKV =
      some (false, { sampleLiveKV with activeController := some { sampleLiveRecord with timestamp := 110000 } }) :=
  setActive_same_id_refreshes_timestamp_only 2 110000 7 "local" "abc" false
    sampleLiveKV sampleLiveRecord rfl (by decide) rfl

/-- C5: a heartbeat `setActive(id, isHeartbeat = true)` while a non-expired
record with a different id is stored returns `changed = false` and leaves
the whole KV state — record and notification keys included — exactly as it
was; this holds for manager.ts's `setActiveController` and for status.ts's
variant alike. -/
theorem heartbeat_from_non_leader_rejected
    (fuel now u : Nat) (iid cid : String) (s : KVState) (c : ControllerRecord)
    (hc : s.activeController = some c)
    (hl : ¬ (now - c.timestamp > HEARTBEAT_TIMEOUT_MS)) (hne : c.id ≠ cid)
    (now2 u1 u2 : Nat) (cid2 : String) (s2 : KVState)
    (c2 : StatusControllerRecord) (hc2 : s2.statusController = some c2)
    (hl2 : ¬ (now2 - c2.timestamp > HEARTBEAT_TIMEOUT_MS)) (hne2 : c2.id ≠ cid2) :
    setActiveController (fuel + 1) now u iid cid true s = some (false, s) ∧
    statusSetActiveController now2 u1 u2 cid2 true s2 = (false, s2) := by
  constructor
  · simp only [setActiveController, getActive_live fuel now u s c hc hl]
    rw [if_neg hne]
    simp
  · simp only [statusSetActiveController, statusGetActiveController, hc2]
    rw [if_neg hl2]
    simp [hne2]

/-- Witness for C5: heartbeats from "eve" are rejected by both modules with
no state change. -/
theorem heartbeat_from_non_leader_rejected_witness :
    setActiveController 3 110000 7 "local" "eve" true sampleTwoLeaderKV =
      some (false, sampleTwoLeaderKV) ∧
    statusSetActiveController 110000 8 9 "eve" true sampleTwoLeaderKV =
      (false, sampleTwoLeaderKV) :=
  heartbeat_from_non_leader_rejected 2 110000 7 "local" "eve" sampleTwoLeaderKV
    sampleLiveRecord rfl (by decide) (by decide) 110000 8 9 "eve"
    sampleTwoLeaderKV sampleStatusRecord rfl (by decide) (by decide)

/-- status.ts's `setActiveController` may touch only its two keys: every
other KV field — the manager's record and notification included — is
preserved. -/
theorem statusSetActive_frame (now u1 u2 : Nat) (cid : String) (hb : Bool)
    (s : KVState) :
    (statusSetActiveController now u1 u2 cid hb s).2.activeController = s.activeController ∧
    (statusSetActiveController now u1 u2 cid hb s).2.controllerNotification = s.controllerNotification ∧
    (statusSetActiveController now u1 u2 cid hb s).2.controllerLock = s.controllerLock ∧
    (statusSetActiveController now u1 u2 cid hb s).2.connections = s.connections ∧
    (statusSetActiveController now u1 u2 cid hb s).2.controllersDir = s.controllersDir ∧
    (statusSetActiveController now u1 u2 cid hb s).2.queues = s.queues := by
  cases hsc : s.statusController with
  | none =>
    simp [statusSetActiveController, statusGetActiveController, hsc,
      statusCreateChangeNotification]
  | some c =>
    by_cases hexp : now - c.timestamp > HEARTBEAT_TIMEOUT_MS
    · simp [statusSetActiveController, statusGetActiveController, hsc, hexp,
        statusCreateChangeNotification]
    · by_cases hid : c.id = cid
      · simp [statusSetActiveController, statusGetActiveController, hsc, hexp,
          hid, statusCreateChangeNotification]
      · by_cases hhb : hb = true
        · simp [statusSetActiveController, statusGetActiveController, hsc,
            hexp, hid, hhb, statusCreateChangeNotification]
        · simp [statusSetActiveController, statusGetActiveController, hsc,
            hexp, hid, hhb, statusCreateChangeNotification]

/-- Each of the two leadership keys holds at most one record, so at most two
non-expired controller records ever coexist. -/
theorem liveControllerRecords_le_two (now : Nat) (s : KVState) :
    (liveControllerRecords now s).length ≤ 2 := by
  rw [liveControllerRecords]
  have h1 : ∀ o : Option ControllerRecord,
      (match o with
       | some r =>
         if now - r.timestamp > HEARTBEAT_TIMEOUT_MS then ([] : List (String × Nat))
         else [(r.id, r.timestamp)]
       | none => []).length ≤ 1 := by
    intro o
    cases o with
    | none => simp
    | some r =>
      by_cases hexp : now - r.timestamp > HEARTBEAT_TIMEOUT_MS <;> simp [hexp]
  have h2 : ∀ o : Option StatusControllerRecord,
      (match o with
       | some r =>
         if now - r.timestamp > HEARTBEAT_TIMEOUT_MS then ([] : List (String × Nat))
         else [(r.id, r.timestamp)]
       | none => []).length ≤ 1 := by
    intro o
    cases o with
    | none => simp
    | some r =>
      by_cases hexp : now - r.timestamp > HEARTBEAT_TIMEOUT_MS <;> simp [hexp]
  rw [List.length_append]
  have := h1 s.activeController
  have := h2 s.statusController
  omega

/-- C3 amended: neither leadership writer ever touches the other's key — the
manager's `setActiveController` preserves status.ts's record and
notification, status.ts's `setActiveController` preserves the manager's —
and since each key holds at most one record, at most two non-expired
ControllerRecords (one per key) coexist; the one-record bound of the claim
fails only because the two modules write different keys. -/
theorem leadership_at_most_one_record_per_key
    (fuel now u : Nat) (iid cid : String) (hb : Bool) (s : KVState)
    (b : Bool) (t : KVState)
    (hset : setActiveController fuel now u iid cid hb s = some (b, t))
    (now2 u1 u2 : Nat) (cid2 : String) (hb2 : Bool) (s2 : KVState)
    (now3 : Nat) (s3 : KVState) :
    (t.statusController = s.statusController ∧
     t.statusNotification = s.statusNotification) ∧
    ((statusSetActiveController now2 u1 u2 cid2 hb2 s2).2.activeController = s2.activeController ∧
     (statusSetActiveController now2 u1 u2 cid2 hb2 s2).2.controllerNotification = s2.controllerNotification) ∧
    (liveControllerRecords now3 s3).length ≤ 2 := by
  have hfr := setActiveController_frame fuel now u iid cid hb s b t hset
  have hsf := statusSetActive_frame now2 u1 u2 cid2 hb2 s2
  exact ⟨⟨hfr.1, hfr.2.1⟩, ⟨hsf.1, hsf.2.1⟩, liveControllerRecords_le_two now3 s3⟩

/-- Witness for the amended C3 theorem, from the empty KV. -/
theorem leadership_at_most_one_record_per_key_witness :
    ((({} : KVState).statusController = ({} : KVState).statusController ∧
      ({} : KVState).statusNotification = ({} : KVState).statusNotification) ∧
     ((statusSetActiveController 1000 1 2 "alice" false {}).2.activeController = ({} : KVState).activeController ∧
      (statusSetActiveController 1000 1 2 "alice" false {}).2.controllerNotification = ({} : KVState).controllerNotification) ∧
     (liveControllerRecords 1000 {}).length ≤ 2) := by
  have h := leadership_at_most_one_record_per_key 1 1000 0 "local" "bob" false {}
    true (createControllerChangeNotification 0 1000 (some "bob")
      { activeController := some { id := "bob", timestamp := 1000, instanceId := "local", metadata := some "controller" } })
    (by rfl) 1000 1 2 "alice" false {} 1000 {}
  exact ⟨⟨rfl, rfl⟩, h.2.1, h.2.2⟩

/-- C3 counterexample: after a status POST by "alice" and a lock POST by
"bob", the KV holds two non-expired ControllerRecords at once — "bob" under
the manager's key and "alice" under status.ts's key — so "at most one
non-expired ControllerRecord" is false. -/
theorem two_live_controller_records :
    liveControllerRecords 2000 twoWritersFinal = [("bob", 2000), ("alice", 1000)] ∧
    (liveControllerRecords 2000 twoWritersFinal).length = 2 := by
  constructor
  · rfl
  · rfl

/-- C10: (a) whenever an authenticated `/controller/lock` POST completes, the
legacy lock key ends up holding the caller's id and the current time, no
matter what `setActiveController` decided; (b) on the rejected-heartbeat path
— a different controller holds a non-expired record — the handler leaves the
active ControllerRecord and the notification untouched and still rewrites the
legacy lock record to name the non-leader caller. -/
theorem lockPost_rewrites_legacy_lock
    (fuel now u : Nat) (iid cid : String) (hb : Bool) (s : KVState)
    (r : Option LockResponse) (t : KVState)
    (hpost : handleLockPost fuel now u iid (some cid) hb s = some (r, t))
    (fuel2 now2 u2 : Nat) (iid2 cid2 : String) (s2 : KVState)
    (c2 : ControllerRecord) (hc2 : s2.activeController = some c2)
    (hl2 : ¬ (now2 - c2.timestamp > HEARTBEAT_TIMEOUT_MS)) (hne2 : c2.id ≠ cid2) :
    t.controllerLock = some { userId := cid, timestamp := now } ∧
    handleLockPost (fuel2 + 1) now2 u2 iid2 (some cid2) true s2 =
      some (some (rejectedHeartbeatResponse c2.id),
        { s2 with controllerLock := some { userId := cid2, timestamp := now2 } }) := by
  constructor
  · cases hset : setActiveController fuel now u iid cid hb s with
    | none =>
      simp only [handleLockPost, hset] at hpost
      exact Option.noConfusion hpost
    | some pr =>
      obtain ⟨changed, s1⟩ := pr
      simp only [handleLockPost, hset] at hpost
      cases hget : getActiveController fuel now u
          { s1 with controllerLock := some { userId := cid, timestamp := now } } with
      | none => rw [hget] at hpost; exact Option.noConfusion hpost
      | some pr2 =>
        obtain ⟨active, s3⟩ := pr2
        rw [hget] at hpost
        have hfr := (getActive_clear_frame fuel now u
          { s1 with controllerLock := some { userId := cid, timestamp := now } }).1
          (active, s3) hget
        have ht : s3 = t := congrArg Prod.snd (Option.some.inj hpost)
        rw [← ht]
        exact hfr.2.2.1
  · have hrej : setActiveController (fuel2 + 1) now2 u2 iid2 cid2 true s2 =
        some (false, s2) := by
      simp only [setActiveController, getActive_live fuel2 now2 u2 s2 c2 hc2 hl2]
      rw [if_neg hne2]
      simp
    have hread : getActiveController (fuel2 + 1) now2 u2
        { s2 with controllerLock := some { userId := cid2, timestamp := now2 } } =
        some (some c2, { s2 with controllerLock := some { userId := cid2, timestamp := now2 } }) :=
      getActive_live fuel2 now2 u2 _ c2 hc2 hl2
    simp only [handleLockPost, hrej, hread, rejectedHeartbeatResponse]
    simp [hne2, Option.map]

/-- Witness for C10: "eve" heartbeats against live leader "abc"; both parts
of the theorem are instantiated on `sampleLiveKV`. -/
theorem lockPost_rewrites_legacy_lock_witness :
    (match handleLockPost 3 110000 7 "local" (some "eve") true sampleLiveKV with
      | some pr => pr.2.controllerLock
      | none => none) = some { userId := "eve", timestamp := 110000 } ∧
    handleLockPost 3 110000 7 "local" (some "eve") true sampleLiveKV =
      some (some (rejectedHeartbeatResponse "abc"),
        { sampleLiveKV with controllerLock := some { userId := "eve", timestamp := 110000 } }) := by
  have h := lockPost_rewrites_legacy_lock 3 110000 7 "local" "eve" true
    sampleLiveKV
    (some (rejectedHeartbeatResponse "abc"))
    { sampleLiveKV with controllerLock := some { userId := "eve", timestamp := 110000 } }
    (by decide) 2 110000 7 "local" "eve" sampleLiveKV sampleLiveRecord rfl
    (by decide) (by decide)
  refine ⟨?_, h.2⟩
  rw [h.2]

/-- C2 counterexample: "controller-abc" is registered and sends
`controller-activate`, yet the handler leaves the whole state — the
leadership KV key included — untouched: no ControllerRecord is written to
the activating controller's id (the handler never enters `setActive`; it
only broadcasts, sends the client list and schedules a sweep). -/
theorem controller_activate_writes_no_record :
    (handleControllerActivate activateSig "controller-abc" 5000).state = activateSig ∧
    (handleControllerActivate activateSig "controller-abc" 5000).state.kv.activeController = none := by
  constructor
  · rfl
  · rfl

/-- C2 amended: on `controller-activate` from a controller id the handler
broadcasts the leadership change to local open non-controller sockets, sends
the synth list immediately, and schedules a delayed reaper sweep after the
grace period — but it does not call the leadership service's `setActive`:
the state, including the ControllerRecord key, is left unchanged. -/
theorem controller_activate_broadcast_only (sig : SignalState) (cid : String)
    (now : Nat) (h : isControllerId cid = true) :
    (handleControllerActivate sig cid now).state = sig ∧
    (handleControllerActivate sig cid now).sends =
      broadcastControllerChange sig (some cid) now ++
        [(cid, Msg.clientList (getConnectedClients sig now))] ∧
    (handleControllerActivate sig cid now).scheduledCleanupDelayMs =
      some CLIENT_GRACE_PERIOD_MS := by
  simp [handleControllerActivate, h]

/-- Witness for the amended C2 theorem on the concrete activation state. -/
theorem controller_activate_broadcast_only_witness :
    (handleControllerActivate activateSig "controller-abc" 5000).state = activateSig ∧
    (handleControllerActivate activateSig "controller-abc" 5000).sends =
      broadcastControllerChange activateSig (some "controller-abc") 5000 ++
        [("controller-abc", Msg.clientList (getConnectedClients activateSig 5000))] ∧
    (handleControllerActivate activateSig "controller-abc" 5000).scheduledCleanupDelayMs =
      some CLIENT_GRACE_PERIOD_MS :=
  controller_activate_broadcast_only activateSig "controller-abc" 5000 (by decide)

/-- C4 counterexample: the active controller "controller-x" sends
`controller-deactivate` at 10500ms; the handler broadcasts a null
`active-controller` to the local synth, but its ControllerRecord stays in
the KV and no ChangeNotification is published — leadership is not cleared. -/
theorem controller_deactivate_deletes_nothing :
    (match handleControllerDeactivate 5 10500 0 deactivateSig "controller-x" with
      | some pr => (pr.1.kv.activeController, pr.1.kv.controllerNotification, pr.2)
      | none => (none, none, [])) =
    (some deactRecord, none, [("synth-s1", Msg.activeController none 10500)]) := by
  rfl

/-- C4 amended: on `controller-deactivate` from a controller id, with a
non-expired manager record stored, the handler broadcasts a null
`active-controller` to local open non-controller sockets when the sender is
the active controller and sends nothing otherwise; in both cases the state —
the ControllerRecord and notification keys included — is unchanged. -/
theorem controller_deactivate_broadcast_only
    (fuel now u : Nat) (sig : SignalState) (cid : String) (c : ControllerRecord)
    (hctl : isControllerId cid = true)
    (hc : sig.kv.activeController = some c)
    (hl : ¬ (now - c.timestamp > HEARTBEAT_TIMEOUT_MS)) :
    handleControllerDeactivate (fuel + 1) now u sig cid =
      some (sig, if c.id = cid then broadcastControllerChange sig none now else []) := by
  simp only [handleControllerDeactivate, hctl, if_true,
    getActive_live fuel now u sig.kv c hc hl]
  by_cases hid : c.id = cid
  · simp [hid]
  · simp [hid]

/-- Witness for the amended C4 theorem on the concrete deactivation state. -/
theorem controller_deactivate_broadcast_only_witness :
    handleControllerDeactivate 6 10500 0 deactivateSig "controller-x" =
      some (deactivateSig,
        if deactRecord.id = "controller-x" then broadcastControllerChange deactivateSig none 10500 else []) :=
  controller_deactivate_broadcast_only 5 10500 0 deactivateSig "controller-x"
    deactRecord (by decide) rfl (by decide)

/-- Overwriting an existing key in place leaves the new value readable. -/
theorem kvGet_overwrite {α : Type} (k : String) (v : α) :
    ∀ l : List (String × α), l.any (fun p => p.1 == k) = true →
      kvGet (l.map (fun p => if p.1 == k then (k, v) else p)) k = some v := by
  intro l
  induction l with
  | nil => intro h; simp at h
  | cons p tl ih =>
    intro h
    by_cases hp : (p.1 == k) = true
    · simp [kvGet, List.find?, hp]
    · have hp2 : (p.1 == k) = false := by simpa using hp
      rw [List.any_cons, hp2, Bool.false_or] at h
      simp only [List.map_cons, if_neg hp]
      simpa [kvGet, List.find?, hp2] using ih h

/-- Appending a fresh key leaves the new value readable. -/
theorem kvGet_append_fresh {α : Type} (k : String) (v : α) :
    ∀ l : List (String × α), l.any (fun p => p.1 == k) = false →
      kvGet (l ++ [(k, v)]) k = some v := by
  intro l
  induction l with
  | nil => intro _; simp [kvGet, List.find?]
  | cons p tl ih =>
    intro h
    by_cases hp : (p.1 == k) = true
    · rw [List.any_cons, hp] at h; simp at h
    · have hp2 : (p.1 == k) = false := by simpa using hp
      rw [List.any_cons, hp2, Bool.false_or] at h
      simp only [List.cons_append]
      simpa [kvGet, List.find?, hp2] using ih h

/-- `kvSet` followed by `kvGet` of the same key returns the written value. -/
theorem kvGet_kvSet_self {α : Type} (l : List (String × α)) (k : String)
    (v : α) : kvGet (kvSet l k v) k = some v := by
  rw [kvSet]
  by_cases h : l.any (fun p => p.1 == k) = true
  · rw [if_pos h]
    exact kvGet_overwrite k v l h
  · have h2 : l.any (fun p => p.1 == k) = false := by
      cases hx : l.any (fun p => p.1 == k) with
      | false => rfl
      | true => exact absurd hx h
    rw [h2]
    simp only [Bool.false_eq_true, if_false]
    exact kvGet_append_fresh k v l h2

/-- C6 amended: when a prior ClientRecord exists (honest, i.e. with a
non-zero `connectionTimestamp`), a re-register — with or without the
`isReconnect` flag — writes a record that inherits the prior
`connectionTimestamp` and increments `reconnectionCount`; but
`lastReconnectTime` is set to the current time only when the flag was given,
and is inherited (via the `|| null` collapse) otherwise. -/
theorem register_with_prior_record
    (sig : SignalState) (id : String) (isReconnect : Bool) (ts now : Nat)
    (iid : String) (e : ClientRecord)
    (hex : kvGet sig.kv.connections id = some e)
    (hct : ¬ (e.connectionTimestamp = 0)) :
    (registerConnection sig id isReconnect ts now iid).2.1.connectionTimestamp = e.connectionTimestamp ∧
    (registerConnection sig id isReconnect ts now iid).2.1.reconnectionCount = e.reconnectionCount + 1 ∧
    (registerConnection sig id isReconnect ts now iid).2.1.lastReconnectTime =
      (if isReconnect then some now else jsOrNone e.lastReconnectTime) ∧
    kvGet (registerConnection sig id isReconnect ts now iid).1.kv.connections id =
      some (registerConnection sig id isReconnect ts now iid).2.1 := by
  cases isReconnect <;> by_cases hctl : isControllerId id = true <;>
    simp [registerConnection, hex, hctl, notifyControllers, jsOr, hct, kvGet_kvSet_self]

/-- Witness for the amended C6 theorem: "synth-z" re-registers at 5000ms
without the flag. -/
theorem register_with_prior_record_witness :
    (registerConnection reRegisterSig "synth-z" false 5000 5000 "local").2.1.connectionTimestamp =
      priorClientRecord.connectionTimestamp ∧
    (registerConnection reRegisterSig "synth-z" false 5000 5000 "local").2.1.reconnectionCount =
      priorClientRecord.reconnectionCount + 1 ∧
    (registerConnection reRegisterSig "synth-z" false 5000 5000 "local").2.1.lastReconnectTime =
      (if false then some 5000 else jsOrNone priorClientRecord.lastReconnectTime) ∧
    kvGet (registerConnection reRegisterSig "synth-z" false 5000 5000 "local").1.kv.connections "synth-z" =
      some (registerConnection reRegisterSig "synth-z" false 5000 5000 "local").2.1 :=
  register_with_prior_record reRegisterSig "synth-z" false 5000 5000 "local"
    priorClientRecord rfl (by decide)

/-- C6 counterexample: "synth-z" has a prior record (lastReconnectTime null)
and re-registers at 5000ms without the `isReconnect` flag.  The record
written does inherit `connectionTimestamp = 100` and bumps
`reconnectionCount` to 1, but its `lastReconnectTime` stays null instead of
being set to the current time 5000 — refuting the claim's "lastReconnectTime
set to the current time ... even when the registering client did not set the
isReconnect flag". -/
theorem register_without_flag_lastReconnectTime_not_now :
    (registerConnection reRegisterSig "synth-z" false 5000 5000 "local").2.1 =
      { instanceId := "local", lastSeen := 5000, connectionTimestamp := 100,
        reconnectionCount := 1, lastReconnectTime := none, isController := false } ∧
    (registerConnection reRegisterSig "synth-z" false 5000 5000 "local").2.1.lastReconnectTime =
      none := by
  constructor
  · rfl
  · rfl

/-- C8 counterexample: registered "synth-a" sends an offer targeting
"synth-ghost", an id with no ClientRecord in the registry and no local
socket; the handler still writes a QueuedMessage for "synth-ghost" — a
queued message exists whose recipient was unknown to the registry at
write-time, refuting the claimed invariant. -/
theorem queued_for_unknown_recipient :
    (handleSignalingMessage signalingSig "synth-a" "offer" "synth-ghost" "sdp-blob").1.kv.queues =
      [("synth-ghost", Msg.signal "offer" "sdp-blob" "synth-a")] ∧
    kvGet signalingSig.kv.connections "synth-ghost" = none := by
  decide

/-- C8 amended: the signaling cases deliver on a local OPEN socket and
otherwise queue for whatever target id the envelope names — the client
registry is never consulted, so queued messages can name recipients the
registry does not know; such orphans only disappear through the queue TTL. -/
theorem signaling_queues_regardless_of_registry
    (sig : SignalState) (senderId msgType targetId payload : String)
    (hsock : ¬ (kvGet sig.activeConnections targetId = some true)) :
    (handleSignalingMessage sig senderId msgType targetId payload).1.kv.queues =
      sig.kv.queues ++ [(targetId, Msg.signal msgType payload senderId)] := by
  cases hkv : kvGet sig.activeConnections targetId with
  | none => simp [handleSignalingMessage, hkv, queueMessage]
  | some b =>
    cases b with
    | false => simp [handleSignalingMessage, hkv, queueMessage]
    | true => exact absurd hkv hsock

/-- Witness for the amended C8 theorem on the concrete signaling state. -/
theorem signaling_queues_regardless_of_registry_witness :
    (handleSignalingMessage signalingSig "synth-a" "offer" "synth-ghost" "sdp-blob").1.kv.queues =
      signalingSig.kv.queues ++ [("synth-ghost", Msg.signal "offer" "sdp-blob" "synth-a")] :=
  signaling_queues_regardless_of_registry signalingSig "synth-a" "offer"
    "synth-ghost" "sdp-blob" (by decide)

/-- `notifyControllers` touches only the queues: the connections family is
untouched. -/
theorem notifyControllers_connections (sig : SignalState) (m : Msg) :
    (notifyControllers sig m).1.kv.connections = sig.kv.connections := rfl

/-- Folding the per-removal controller notifications never changes the
connections family. -/
theorem notifyFold_connections :
    ∀ (ids : List String) (sig : SignalState) (acc : List (String × Msg)),
      ((ids.foldl
        (fun acc2 cid =>
          let step := notifyControllers acc2.1 (Msg.clientEvent "client-disconnected" cid)
          (step.1, acc2.2 ++ step.2))
        (sig, acc)).1.kv.connections) = sig.kv.connections := by
  intro ids
  induction ids with
  | nil => intro sig acc; rfl
  | cons c tl ih =>
    intro sig acc
    exact ih (notifyControllers sig (Msg.clientEvent "client-disconnected" c)).1
      (acc ++ (notifyControllers sig (Msg.clientEvent "client-disconnected" c)).2)

/-- In an association list whose keys are distinct, a key determines its
value. -/
theorem assoc_nodup_eq {α : Type} :
    ∀ (l : List (String × α)) (k : String) (a b : α),
      (l.map Prod.fst).Nodup → (k, a) ∈ l → (k, b) ∈ l → a = b := by
  intro l
  induction l with
  | nil =>
    intro k a b _ ha _
    cases ha
  | cons p tl ih =>
    intro k a b hnd ha hb
    rw [List.map_cons, List.nodup_cons] at hnd
    rcases List.mem_cons.mp ha with ha1 | ha2
    · rcases List.mem_cons.mp hb with hb1 | hb2
      · exact congrArg Prod.snd (ha1.trans hb1.symm)
      · exfalso
        apply hnd.1
        have hk : p.1 = k := congrArg Prod.fst ha1.symm
        rw [hk]
        exact List.mem_map.mpr ⟨(k, b), hb2, rfl⟩
    · rcases List.mem_cons.mp hb with hb1 | hb2
      · exfalso
        apply hnd.1
        have hk : p.1 = k := congrArg Prod.fst hb1.symm
        rw [hk]
        exact List.mem_map.mpr ⟨(k, a), ha2, rfl⟩
      · exact ih k a b hnd.2 ha2 hb2

/-- C9: a synth whose `now − connectionTimestamp` is still inside the
15-second grace period is never removed by a reaper sweep: its ClientRecord
survives `cleanupBasedOnWebRTCConnections` whatever the reported WebRTC
connection sets say.  (`Nodup` of the keys holds of any KV snapshot: KV keys
are unique.) -/
theorem reaper_spares_grace_period
    (sig : SignalState) (now : Nat) (id : String) (r : ClientRecord)
    (hmem : (id, r) ∈ sig.kv.connections)
    (hkeys : (sig.kv.connections.map Prod.fst).Nodup)
    (hgrace : now - jsOr r.connectionTimestamp 0 < CLIENT_GRACE_PERIOD_MS) :
    (id, r) ∈ (cleanupBasedOnWebRTCConnections sig now).1.kv.connections := by
  rw [cleanupBasedOnWebRTCConnections]
  set union := sig.activeWebRTCConnections.foldl (fun acc p => acc ++ p.2) [] with hu
  set removedIds :=
    (sig.kv.connections.filter (reaperRemoves now union)).map (fun p => p.1) with hrm
  rw [notifyFold_connections]
  apply List.mem_filter.mpr
  refine ⟨hmem, ?_⟩
  show (!(removedIds.contains id)) = true
  cases hcon : removedIds.contains id with
  | false => rfl
  | true =>
    exfalso
    have hidmem : id ∈ removedIds := by
      rcases List.contains_iff_exists_mem_beq.mp hcon with ⟨x, hx, hbeq⟩
      have hxid : id = x := eq_of_beq hbeq
      rw [hxid]
      exact hx
    rw [hrm] at hidmem
    rcases List.mem_map.mp hidmem with ⟨q, hq, hqid⟩
    have hqmem : q ∈ sig.kv.connections := (List.mem_filter.mp hq).1
    have hqrem : reaperRemoves now union q = true := (List.mem_filter.mp hq).2
    obtain ⟨qid, qr⟩ := q
    have hqid2 : qid = id := hqid
    rw [hqid2] at hqmem hqrem
    have hqr : qr = r := assoc_nodup_eq sig.kv.connections id qr r hkeys hqmem hmem
    rw [hqr] at hqrem
    rw [reaperRemoves] at hqrem
    rw [Bool.and_eq_true, Bool.and_eq_true] at hqrem
    have h2 := hqrem.1.2
    rw [Bool.not_eq_true'] at h2
    exact absurd hgrace (of_decide_eq_false h2)

/-- Witness for C9: a sweep at 6000ms — one second after "synth-y"
registered and with no controller claiming it — keeps its record. -/
theorem reaper_spares_grace_period_witness :
    ("synth-y", freshClientRecord) ∈
      (cleanupBasedOnWebRTCConnections graceSig 6000).1.kv.connections :=
  reaper_spares_grace_period graceSig 6000 "synth-y" freshClientRecord
    (by decide) (by decide) (by decide)
